import Mathlib

/-!
Verification of the Investment_App data orchestration core
(`src/DataModule`), shallowly embedded in Lean 4.

Modelling conventions used throughout this development:
* Python `Decimal`/`float` arithmetic is idealised as exact rational
  arithmetic over `ℚ`; `round(x, 2)` is modelled by `round2` below
  (round-to-nearest on `x * 100`).
* Python `date` values are modelled as `Int` ordinal days, so that
  `(d1 - d2).days = d1 - d2`; `datetime` values are modelled as `ℚ`
  seconds, so that `(t1 - t2).total_seconds() = t1 - t2`.
* Python truthiness of a `Decimal` field is `≠ 0`; truthiness of an
  optional field is "present and ≠ 0"; truthiness of a list is
  non-emptiness; truthiness of a string is non-emptiness.
* The standard-deviation outlier test `abs(x - mean) > 3 * stdev(l)`
  (with `stdev = sqrt` of the sample variance) is expressed with both
  sides squared, `(x - mean)^2 > 9 * sampleVar l`, which is equivalent
  over the reals and keeps the embedding inside `ℚ`.
* Every `try/except` block in the source catches all exceptions; the
  embedded functions are total, so the fallback branches that merely
  guard against runtime exceptions are noted in comments where relevant.
-/

/-! ## Data model (`src/DataModule/models/financial_data.py`) -/

/-- `DataSource` enumeration (financial_data.py lines 17-21). -/
inductive DataSource where
  | yahoo_finance
  | alpha_vantage
  | manual
deriving DecidableEq, Repr

/-- `DataType` enumeration (financial_data.py lines 24-29). -/
inductive DataType where
  | stock_price
  | financial_statement
  | market_data
  | company_info
deriving DecidableEq, Repr

/-- `StockPrice` model (financial_data.py lines 32-53).
`date` is an ordinal day; `close_price` is required, the other prices
and the volume are optional.  The pydantic range validators are not
baked into the type: the quality service is defensive and its claims
hold for arbitrary field values. -/
structure StockPrice where
  symbol : String
  date : Int
  open_price : Option ℚ
  high_price : Option ℚ
  low_price : Option ℚ
  close_price : ℚ
  adjusted_close : Option ℚ
  volume : Option Int
deriving DecidableEq

/-- `CompanyInfo` model (financial_data.py lines 56-79), restricted to
the fields read by the embedded services (`company_name`, `sector`,
`industry`, `market_cap`, `trailing_pe`, `beta`, `description`); the
remaining optional ratio fields are never read by the code under
verification. -/
structure CompanyInfo where
  symbol : String
  company_name : String
  sector : Option String
  industry : Option String
  market_cap : Option ℚ
  trailing_pe : Option ℚ
  beta : Option ℚ
  description : Option String
deriving DecidableEq

/-- `IncomeStatement` (financial_data.py lines 82-104), restricted to
the one field the quality service reads. -/
structure IncomeStatement where
  revenue : Option ℚ
deriving DecidableEq

/-- `BalanceSheet` (financial_data.py lines 107-126), restricted to the
fields the quality service reads. -/
structure BalanceSheet where
  total_assets : Option ℚ
  total_liabilities : Option ℚ
  total_equity : Option ℚ
deriving DecidableEq

/-- `CashFlowStatement` (financial_data.py lines 129-146), restricted to
one representative field; the quality service only tests presence. -/
structure CashFlowStatement where
  operating_cash_flow : Option ℚ
deriving DecidableEq

/-- `FinancialStatement` (financial_data.py lines 149-158).
`period_ending` is an ordinal day. -/
structure FinancialStatement where
  symbol : String
  period_ending : Int
  income_statement : Option IncomeStatement
  balance_sheet : Option BalanceSheet
  cash_flow_statement : Option CashFlowStatement
deriving DecidableEq

/-- `DataQualityMetrics` (financial_data.py lines 172-188), restricted
to the score fields.  The `last_assessed` timestamp and the aggregate
`issues` list are omitted from the embedding; the issue strings of the
consistency pass, the only ones a claim mentions, are modelled
separately in `assessConsistency`. -/
structure DataQualityMetrics where
  symbol : String
  data_source : DataSource
  data_type : DataType
  quality_score : ℚ
  completeness_score : ℚ
  freshness_score : ℚ
  accuracy_score : ℚ
deriving DecidableEq

/-- `StockData` (financial_data.py lines 191-206).  `last_updated` is in
seconds. -/
structure StockData where
  symbol : String
  company_info : Option CompanyInfo
  current_price : Option StockPrice
  historical_prices : List StockPrice
  financial_statements : List FinancialStatement
  data_quality : Option DataQualityMetrics
  last_updated : ℚ
deriving DecidableEq

/-- `APIRateLimit` (financial_data.py lines 209-225).  `reset_time` is
in seconds. -/
structure APIRateLimit where
  api_name : String
  endpoint : String
  requests_made : Nat
  requests_limit : Nat
  reset_time : ℚ
deriving DecidableEq

/-- `APIRateLimit.is_limit_exceeded` (financial_data.py lines 222-225). -/
def APIRateLimit.is_limit_exceeded (l : APIRateLimit) : Bool :=
  l.requests_made ≥ l.requests_limit

/-! ## Quality grading (`data_quality_service.py`) -/

/-- `DataQualityService.quality_thresholds` dictionary
(data_quality_service.py lines 30-35). -/
def qualityThresholds (k : String) : ℚ :=
  if k = "excellent" then 90
  else if k = "good" then 75
  else if k = "fair" then 60
  else if k = "poor" then 40
  else 0

/-- `DataQualityService.get_quality_grade` (data_quality_service.py
lines 584-603). -/
def getQualityGrade (quality_score : ℚ) : String :=
  if quality_score ≥ qualityThresholds "excellent" then "A"
  else if quality_score ≥ qualityThresholds "good" then "B"
  else if quality_score ≥ qualityThresholds "fair" then "C"
  else if quality_score ≥ qualityThresholds "poor" then "D"
  else "F"

/-- Letter-grade rank, the order A > B > C > D > F used by the spec's
monotonicity property. -/
def gradeRank (g : String) : Nat :=
  if g = "A" then 4
  else if g = "B" then 3
  else if g = "C" then 2
  else if g = "D" then 1
  else 0

theorem qualityThresholds_excellent : qualityThresholds "excellent" = 90 := rfl

theorem qualityThresholds_good : qualityThresholds "good" = 75 := rfl

theorem qualityThresholds_fair : qualityThresholds "fair" = 60 := rfl

theorem qualityThresholds_poor : qualityThresholds "poor" = 40 := rfl

/-- The grade function, with the threshold dictionary lookups resolved. -/
theorem getQualityGrade_eq (x : ℚ) :
    getQualityGrade x =
      if x ≥ 90 then "A"
      else if x ≥ 75 then "B"
      else if x ≥ 60 then "C"
      else if x ≥ 40 then "D"
      else "F" := by
  simp only [getQualityGrade, qualityThresholds_excellent, qualityThresholds_good,
    qualityThresholds_fair, qualityThresholds_poor]

/-! ## Cache TTL (`data_service.py`) -/

/-- `DataService._determine_cache_ttl` (data_service.py lines 411-432).
The `except` fallback (return 900) is unreachable in the total
embedding. -/
def determineCacheTtl (stock_data : StockData) : Int :=
  let base_ttl : Int := 900
  match stock_data.data_quality with
  | some dq =>
      if dq.quality_score ≥ 90 then base_ttl * 2
      else if dq.quality_score ≥ 75 then base_ttl
      else if dq.quality_score ≥ 60 then base_ttl / 2
      else base_ttl / 4
  | none => base_ttl

/-! ## Theorems for C9 and C3 -/

/-- C9: `get_quality_grade` maps a score to a letter with boundaries
exactly at 90/75/60/40 (≥90 → A, ≥75 → B, ≥60 → C, ≥40 → D, else F),
and the mapping is monotone in letter-grade rank. -/
theorem c9_quality_grade_boundaries_and_monotone :
    (∀ x : ℚ, 90 ≤ x → getQualityGrade x = "A") ∧
    (∀ x : ℚ, 75 ≤ x → x < 90 → getQualityGrade x = "B") ∧
    (∀ x : ℚ, 60 ≤ x → x < 75 → getQualityGrade x = "C") ∧
    (∀ x : ℚ, 40 ≤ x → x < 60 → getQualityGrade x = "D") ∧
    (∀ x : ℚ, x < 40 → getQualityGrade x = "F") ∧
    (∀ x y : ℚ, y ≤ x →
      gradeRank (getQualityGrade y) ≤ gradeRank (getQualityGrade x)) := by
  refine ⟨?_, ?_, ?_, ?_, ?_, ?_⟩
  · intro x hx
    rw [getQualityGrade_eq]
    split_ifs <;> first | rfl | linarith
  · intro x hx hx'
    rw [getQualityGrade_eq]
    split_ifs <;> first | rfl | linarith
  · intro x hx hx'
    rw [getQualityGrade_eq]
    split_ifs <;> first | rfl | linarith
  · intro x hx hx'
    rw [getQualityGrade_eq]
    split_ifs <;> first | rfl | linarith
  · intro x hx
    rw [getQualityGrade_eq]
    split_ifs <;> first | rfl | linarith
  · intro x y hxy
    rw [getQualityGrade_eq, getQualityGrade_eq]
    split_ifs <;> first | decide | (exfalso; linarith)

/-- Witness for C9 at concrete scores. -/
theorem c9_quality_grade_witness :
    getQualityGrade 95 = "A" ∧ getQualityGrade 80 = "B" ∧
    gradeRank (getQualityGrade 55) ≤ gradeRank (getQualityGrade 92) := by
  refine ⟨?_, ?_, ?_⟩
  · exact c9_quality_grade_boundaries_and_monotone.1 95 (by norm_num)
  · exact c9_quality_grade_boundaries_and_monotone.2.1 80 (by norm_num) (by norm_num)
  · exact c9_quality_grade_boundaries_and_monotone.2.2.2.2.2 92 55 (by norm_num)

/-- C3: the cache TTL is a pure function of the quality score with base
900 s: score ≥ 90 → 1800, 75 ≤ score < 90 → 900, 60 ≤ score < 75 → 450,
score < 60 → 225, and a record with no quality report → 900. -/
theorem c3_cache_ttl_tiers (sd : StockData) :
    (∀ dq : DataQualityMetrics, sd.data_quality = some dq →
      (90 ≤ dq.quality_score → determineCacheTtl sd = 1800) ∧
      (75 ≤ dq.quality_score → dq.quality_score < 90 → determineCacheTtl sd = 900) ∧
      (60 ≤ dq.quality_score → dq.quality_score < 75 → determineCacheTtl sd = 450) ∧
      (dq.quality_score < 60 → determineCacheTtl sd = 225)) ∧
    (sd.data_quality = none → determineCacheTtl sd = 900) := by
  constructor
  · intro dq hdq
    refine ⟨?_, ?_, ?_, ?_⟩ <;> intros <;>
      simp only [determineCacheTtl, hdq] <;> split_ifs <;> first | rfl | linarith
  · intro h
    simp [determineCacheTtl, h]

/-- Witness for C3: a score-95 record is cached 1800 s, a score-30
record 225 s, a report-free record 900 s. -/
theorem c3_cache_ttl_witness :
    determineCacheTtl
      { symbol := "AAPL", company_info := none, current_price := none,
        historical_prices := [], financial_statements := [],
        data_quality := some
          { symbol := "AAPL", data_source := DataSource.yahoo_finance,
            data_type := DataType.stock_price, quality_score := 95,
            completeness_score := 95, freshness_score := 95,
            accuracy_score := 95 },
        last_updated := 0 } = 1800 ∧
    determineCacheTtl
      { symbol := "AAPL", company_info := none, current_price := none,
        historical_prices := [], financial_statements := [],
        data_quality := some
          { symbol := "AAPL", data_source := DataSource.yahoo_finance,
            data_type := DataType.stock_price, quality_score := 30,
            completeness_score := 30, freshness_score := 30,
            accuracy_score := 30 },
        last_updated := 0 } = 225 ∧
    determineCacheTtl
      { symbol := "AAPL", company_info := none, current_price := none,
        historical_prices := [], financial_statements := [],
        data_quality := none, last_updated := 0 } = 900 := by
  refine ⟨?_, ?_, ?_⟩
  · exact ((c3_cache_ttl_tiers _).1 _ rfl).1 (by norm_num)
  · exact ((c3_cache_ttl_tiers _).1 _ rfl).2.2.2 (by norm_num)
  · exact (c3_cache_ttl_tiers _).2 rfl

/-! ## Rate limiting (`data_service.py`) -/

/-- The mutable `DataService` state read and written by the rate-limit
helpers: the `rate_limits` dictionary built in `__init__`
(data_service.py lines 66-79).  Sources with no configured budget map
to `none` (`self.rate_limits.get(source)` returning `None`). -/
structure ServiceState where
  rate_limits : DataSource → Option APIRateLimit

/-- The window period added on lazy reset (data_service.py lines
390-393): 24 hours for Alpha Vantage, 1 hour otherwise, in seconds. -/
def resetPeriod (source : DataSource) : ℚ :=
  if source = DataSource.alpha_vantage then 86400 else 3600

/-- `DataService._check_rate_limit` (data_service.py lines 380-399),
with the wall clock passed explicitly.  Returns the decision together
with the updated state (the source mutates the `APIRateLimit` object in
place on a lazy window reset).  A source with no configured budget is
allowed. -/
def checkRateLimit (now : ℚ) (st : ServiceState) (source : DataSource) :
    Bool × ServiceState :=
  match st.rate_limits source with
  | none => (true, st)
  | some rl =>
      let rl' := if now > rl.reset_time then
          { rl with requests_made := 0, reset_time := now + resetPeriod source }
        else rl
      (!rl'.is_limit_exceeded,
       { rate_limits := fun s => if s = source then some rl' else st.rate_limits s })

/-- `DataService._update_rate_limit` (data_service.py lines 401-409):
increment the counter when the source has a configured budget. -/
def updateRateLimit (st : ServiceState) (source : DataSource) : ServiceState :=
  match st.rate_limits source with
  | none => st
  | some rl =>
      { rate_limits := fun s =>
          if s = source then some { rl with requests_made := rl.requests_made + 1 }
          else st.rate_limits s }

/-- The `try/except` wrapper of `_check_rate_limit` (data_service.py
lines 397-399): an internal exception yields `True` (fail-open). -/
def checkRateLimitGuard : Except String Bool → Bool
  | Except.ok b => b
  | Except.error _ => true

/-- One `_update_rate_limit` call increments the configured counter. -/
theorem updateRateLimit_entry (st : ServiceState) (source : DataSource)
    (rl : APIRateLimit) (h : st.rate_limits source = some rl) :
    (updateRateLimit st source).rate_limits source =
      some { rl with requests_made := rl.requests_made + 1 } := by
  simp [updateRateLimit, h]

/-- Iterating `_update_rate_limit` adds to the configured counter. -/
theorem updateRateLimit_iterate (st : ServiceState) (source : DataSource)
    (rl : APIRateLimit) (h : st.rate_limits source = some rl) :
    ∀ n : Nat, ((fun s => updateRateLimit s source)^[n] st).rate_limits source =
      some { rl with requests_made := rl.requests_made + n } := by
  intro n
  induction n with
  | zero => simpa using h
  | succ n ih =>
      rw [Function.iterate_succ_apply']
      rw [updateRateLimit_entry _ _ _ ih]
      simp [Nat.add_assoc]

/-- C4: for a source with a configured budget, incrementing the counter
to the limit makes the in-window check deny, and a check past the
window's reset time zeroes the counter, moves the reset time one full
source period (1 h Yahoo Finance, 24 h Alpha Vantage) past `now`, and
allows again. -/
theorem c4_rate_limit_window (now : ℚ) (st : ServiceState) (source : DataSource)
    (rl : APIRateLimit) (h : st.rate_limits source = some rl) :
    (∀ n : Nat, ((fun s => updateRateLimit s source)^[n] st).rate_limits source =
        some { rl with requests_made := rl.requests_made + n }) ∧
    (rl.requests_made ≥ rl.requests_limit → ¬ now > rl.reset_time →
      (checkRateLimit now st source).1 = false) ∧
    (now > rl.reset_time →
      (checkRateLimit now st source).2.rate_limits source =
        some { rl with requests_made := 0, reset_time := now + resetPeriod source } ∧
      (0 < rl.requests_limit → (checkRateLimit now st source).1 = true)) ∧
    resetPeriod DataSource.yahoo_finance = 3600 ∧
    resetPeriod DataSource.alpha_vantage = 86400 := by
  refine ⟨updateRateLimit_iterate st source rl h, ?_, ?_, rfl, rfl⟩
  · intro hexc hwin
    simp [checkRateLimit, h, hwin, APIRateLimit.is_limit_exceeded, hexc]
  · intro hwin
    constructor
    · simp [checkRateLimit, h, hwin]
    · intro hlim
      simp [checkRateLimit, h, hwin, APIRateLimit.is_limit_exceeded, Nat.pos_iff_ne_zero.mp hlim,
        Nat.not_le.mpr hlim]

/-- Witness for C4: Alpha Vantage budget of 500, counter driven to the
limit denies inside the window; a check past the reset time re-allows
with the window advanced by 24 hours. -/
theorem c4_rate_limit_witness :
    let rl : APIRateLimit :=
      { api_name := "alpha_vantage", endpoint := "general",
        requests_made := 500, requests_limit := 500, reset_time := 1000 }
    let st : ServiceState :=
      { rate_limits := fun s => if s = DataSource.alpha_vantage then some rl else none }
    (checkRateLimit 500 st DataSource.alpha_vantage).1 = false ∧
    (checkRateLimit 2000 st DataSource.alpha_vantage).2.rate_limits DataSource.alpha_vantage =
      some { rl with requests_made := 0, reset_time := 2000 + 86400 } ∧
    (checkRateLimit 2000 st DataSource.alpha_vantage).1 = true := by
  intro rl st
  refine ⟨?_, ?_, ?_⟩
  · exact (c4_rate_limit_window 500 st DataSource.alpha_vantage rl (by decide)).2.1
      (by decide) (by norm_num)
  · have := ((c4_rate_limit_window 2000 st DataSource.alpha_vantage rl (by decide)).2.2.1
      (by norm_num)).1
    simpa [resetPeriod] using this
  · exact ((c4_rate_limit_window 2000 st DataSource.alpha_vantage rl (by decide)).2.2.1
      (by norm_num)).2 (by norm_num)

/-- C10: the orchestrator's rate-limit check is fail-open: a source
with no configured budget is always allowed, and the `except` wrapper
turns any internal failure into `True`. -/
theorem c10_rate_limit_fail_open (now : ℚ) (st : ServiceState) (source : DataSource) :
    (st.rate_limits source = none → checkRateLimit now st source = (true, st)) ∧
    (∀ e : String, checkRateLimitGuard (Except.error e) = true) := by
  constructor
  · intro h
    simp [checkRateLimit, h]
  · intro e
    rfl

/-- Witness for C10: the `manual` source has no budget entry and is
allowed. -/
theorem c10_rate_limit_fail_open_witness :
    let st : ServiceState :=
      { rate_limits := fun s => if s = DataSource.manual then none else none }
    checkRateLimit 0 st DataSource.manual = (true, st) ∧
    checkRateLimitGuard (Except.error "boom") = true := by
  intro st
  exact ⟨(c10_rate_limit_fail_open 0 st DataSource.manual).1 rfl,
    (c10_rate_limit_fail_open 0 st DataSource.manual).2 "boom"⟩

/-! ## Quality assessment (`data_quality_service.py`) -/

/-- Python truthiness of an optional numeric field: present and
non-zero. -/
def optTruthy : Option ℚ → Bool
  | none => false
  | some q => q ≠ 0

/-- Indicator of a boolean, used for field counting. -/
def b2n (b : Bool) : Nat := if b then 1 else 0

/-- Arithmetic mean of a list of rationals (`statistics.mean`); callers
guard against the empty list exactly where the source does. -/
def qMean (l : List ℚ) : ℚ := l.sum / l.length

/-- Company-profile block of `_assess_completeness`
(data_quality_service.py lines 118-132): (completed, total) field
counts over the 7 expected fields.  `company_name` is required by the
model and never `None`, so it always counts as completed. -/
def completenessCompany : Option CompanyInfo → Nat × Nat
  | some ci =>
      (1 + b2n ci.sector.isSome + b2n ci.industry.isSome + b2n ci.market_cap.isSome +
        b2n ci.trailing_pe.isSome + b2n ci.beta.isSome + b2n ci.description.isSome, 7)
  | none => (0, 7)

/-- Current-price block of `_assess_completeness` (lines 134-145):
counts over the 5 expected fields; `close_price` is required and always
counts. -/
def completenessPrice : Option StockPrice → Nat × Nat
  | some p =>
      (b2n p.open_price.isSome + b2n p.high_price.isSome + b2n p.low_price.isSome +
        1 + b2n p.volume.isSome, 5)
  | none => (0, 5)

/-- Historical-depth block of `_assess_completeness` (lines 147-160). -/
def completenessHistorical (ps : List StockPrice) : Nat × Nat :=
  if ps ≠ [] then
    (if ps.length ≥ 30 then 2 else if ps.length ≥ 7 then 1 else 0, 2)
  else (0, 2)

/-- Sub-document presence count for one financial statement
(lines 180-196). -/
def stmtComponentsCompleted (s : FinancialStatement) : Nat :=
  b2n s.income_statement.isSome + b2n s.balance_sheet.isSome +
    b2n s.cash_flow_statement.isSome

/-- Statements within the last 730 days (lines 165-168). -/
def recentStatements (today : Int) (stmts : List FinancialStatement) :
    List FinancialStatement :=
  stmts.filter (fun s => s.period_ending ≥ today - 730)

/-- Financial-statement block of `_assess_completeness` (lines
162-199): recency bonus (out of 2) plus per-statement component counts
(3 per statement) over the 2 most recent statements. -/
def completenessStatements (today : Int) (stmts : List FinancialStatement) :
    Nat × Nat :=
  if stmts ≠ [] then
    let recent := recentStatements today stmts
    let base := if recent.length ≥ 2 then 2 else if recent.length ≥ 1 then 1 else 0
    (base + ((recent.take 2).map stmtComponentsCompleted).sum,
     2 + 3 * (recent.take 2).length)
  else (0, 8)

/-- `DataQualityService._assess_completeness` (lines 103-210):
`completed_fields / total_fields * 100`. -/
def assessCompleteness (today : Int) (sd : StockData) : ℚ :=
  let comp := completenessCompany sd.company_info
  let pr := completenessPrice sd.current_price
  let hist := completenessHistorical sd.historical_prices
  let stmts := completenessStatements today sd.financial_statements
  let completed : Nat := comp.1 + pr.1 + hist.1 + stmts.1
  let total : Nat := comp.2 + pr.2 + hist.2 + stmts.2
  if total > 0 then (completed : ℚ) / (total : ℚ) * 100 else 0

/-- Current-price staircase of `_assess_freshness` (lines 228-244). -/
def priceFreshness (today : Int) : Option StockPrice → ℚ
  | some p =>
      let age := today - p.date
      if age = 0 then 100
      else if age ≤ 1 then 90
      else if age ≤ 3 then 70
      else if age ≤ 7 then 50
      else 20
  | none => 0

/-- Date of the most recent historical price (`max(..., key=date)`). -/
def maxPriceDate : List StockPrice → Int
  | [] => 0
  | p :: ps => ps.foldl (fun a q => max a q.date) p.date

/-- Historical-price staircase of `_assess_freshness` (lines 246-261). -/
def histFreshness (today : Int) (ps : List StockPrice) : ℚ :=
  if ps ≠ [] then
    let age := today - maxPriceDate ps
    if age ≤ 1 then 100
    else if age ≤ 3 then 80
    else if age ≤ 7 then 60
    else 30
  else 0

/-- Most recent statement period end (`max(..., key=period_ending)`). -/
def maxStmtDate : List FinancialStatement → Int
  | [] => 0
  | s :: ss => ss.foldl (fun a t => max a t.period_ending) s.period_ending

/-- Financial-statement staircase of `_assess_freshness` (lines
263-280). -/
def stmtFreshness (today : Int) (stmts : List FinancialStatement) : ℚ :=
  if stmts ≠ [] then
    let age := today - maxStmtDate stmts
    if age ≤ 90 then 100
    else if age ≤ 180 then 80
    else if age ≤ 365 then 60
    else if age ≤ 730 then 40
    else 20
  else 0

/-- Record-age staircase of `_assess_freshness` (lines 282-294), over
`(now - last_updated)` hours. -/
def updatedFreshness (now : ℚ) (sd : StockData) : ℚ :=
  let data_age_hours := (now - sd.last_updated) / 3600
  if data_age_hours ≤ 1 then 100
  else if data_age_hours ≤ 6 then 90
  else if data_age_hours ≤ 24 then 70
  else if data_age_hours ≤ 72 then 50
  else 30

/-- `DataQualityService._assess_freshness` (lines 212-304): mean of the
four staircase sub-scores (absent data contributes a 0). -/
def assessFreshness (today : Int) (now : ℚ) (sd : StockData) : ℚ :=
  let freshness_scores : List ℚ :=
    [priceFreshness today sd.current_price,
     histFreshness today sd.historical_prices,
     stmtFreshness today sd.financial_statements,
     updatedFreshness now sd]
  if freshness_scores ≠ [] then qMean freshness_scores else 0

/-- `DataQualityService._validate_price_data` (lines 476-516).  Each
deduction `d*` names one penalty of the source; they are subtracted
from the 100 baseline and the result floored at 0, exactly as the
sequential `score -= ...; return max(0, score)` of the source. -/
def validatePriceData (p : StockPrice) : ℚ :=
  -- line 482: missing (falsy) close price
  let d1 : ℚ := if p.close_price = 0 then 30 else 0
  -- line 488: `all([...])` is Python truthiness of the four prices
  let allPresent : Bool := optTruthy p.open_price && optTruthy p.high_price &&
    optTruthy p.low_price && decide (p.close_price ≠ 0)
  -- lines 489-492: open not between low and high
  let d2 : ℚ := if allPresent ∧
      ¬ (p.low_price.getD 0 ≤ p.open_price.getD 0 ∧
         p.open_price.getD 0 ≤ p.high_price.getD 0) then 20 else 0
  -- lines 494-497: close not between low and high
  let d3 : ℚ := if allPresent ∧
      ¬ (p.low_price.getD 0 ≤ p.close_price ∧
         p.close_price ≤ p.high_price.getD 0) then 20 else 0
  -- lines 500-503: unreasonable close price
  let d4 : ℚ := if p.close_price ≠ 0 ∧ (p.close_price ≤ 0 ∨ p.close_price > 100000)
    then 25 else 0
  -- lines 506-509: negative volume
  let d5 : ℚ := match p.volume with
    | some v => if v < 0 then 15 else 0
    | none => 0
  max 0 (100 - d1 - d2 - d3 - d4 - d5)

/-- `DataQualityService._validate_financial_statement` (lines 518-553). -/
def validateFinancialStatement (stmt : FinancialStatement) : ℚ :=
  -- lines 524-527: no component at all
  if stmt.income_statement.isNone ∧ stmt.balance_sheet.isNone ∧
      stmt.cash_flow_statement.isNone then 0
  else
    -- lines 530-534: truthy negative revenue
    let d1 : ℚ := match stmt.income_statement with
      | some inc => if optTruthy inc.revenue ∧ inc.revenue.getD 0 < 0 then 20 else 0
      | none => 0
    -- lines 537-546: balance-sheet identity beyond 5% tolerance,
    -- checked only when all three totals are truthy
    let d2 : ℚ := match stmt.balance_sheet with
      | some bs =>
          if optTruthy bs.total_assets ∧ optTruthy bs.total_liabilities ∧
              optTruthy bs.total_equity ∧
              |bs.total_assets.getD 0 - (bs.total_liabilities.getD 0 + bs.total_equity.getD 0)| /
                bs.total_assets.getD 0 > 0.05 then 30 else 0
      | none => 0
    max 0 (100 - d1 - d2)

/-- `DataQualityService._validate_company_info` (lines 555-582). -/
def validateCompanyInfo (ci : CompanyInfo) : ℚ :=
  -- lines 561-563: falsy (empty) company name
  let d1 : ℚ := if ci.company_name = "" then 30 else 0
  -- lines 566-568: truthy non-positive market cap
  let d2 : ℚ := if optTruthy ci.market_cap ∧ ci.market_cap.getD 0 ≤ 0 then 20 else 0
  -- lines 570-572: truthy P/E outside (0, 1000]
  let d3 : ℚ := if optTruthy ci.trailing_pe ∧
      (ci.trailing_pe.getD 0 ≤ 0 ∨ ci.trailing_pe.getD 0 > 1000) then 15 else 0
  -- lines 574-576: truthy extreme beta
  let d4 : ℚ := if optTruthy ci.beta ∧ |ci.beta.getD 0| > 5 then 10 else 0
  max 0 (100 - d1 - d2 - d3 - d4)

/-- Historical-price component of `_assess_accuracy` (lines 326-338):
only the first 30 points are validated (a point is "valid" when its
validation score is truthy, i.e. non-zero), but the average divides by
the total number of historical points. -/
def historicalPriceAccuracy (ps : List StockPrice) : ℚ :=
  let total := ps.length
  let valid := ((ps.take 30).filter (fun p => validatePriceData p != 0)).length
  if total > 0 then (valid : ℚ) / (total : ℚ) * 100 else 0

/-- Financial-statement component of `_assess_accuracy` (lines
341-353). -/
def statementAccuracy (stmts : List FinancialStatement) : ℚ :=
  let total := stmts.length
  let valid := (stmts.filter (fun s => validateFinancialStatement s != 0)).length
  if total > 0 then (valid : ℚ) / (total : ℚ) * 100 else 0

/-- The `accuracy_checks` list of `_assess_accuracy` (lines 318-358),
in source order: current price, historical prices, statements, company
info — each present only when the corresponding data is. -/
def accuracyChecks (sd : StockData) : List ℚ :=
  (sd.current_price.toList.map validatePriceData) ++
  (if sd.historical_prices ≠ [] then [historicalPriceAccuracy sd.historical_prices] else []) ++
  (if sd.financial_statements ≠ [] then [statementAccuracy sd.financial_statements] else []) ++
  (sd.company_info.toList.map validateCompanyInfo)

/-- `DataQualityService._assess_accuracy` (lines 306-368): mean of the
computable checks, 0 when none apply. -/
def assessAccuracy (sd : StockData) : ℚ :=
  if accuracyChecks sd ≠ [] then qMean (accuracyChecks sd) else 0

/-- The symbol set of `_assess_consistency` (lines 384-393): company
info, current price, first 5 historical prices, first 3 statements. -/
def consistencySymbolList (sd : StockData) : List String :=
  (sd.company_info.map (·.symbol)).toList ++
  (sd.current_price.map (·.symbol)).toList ++
  (sd.historical_prices.take 5).map (·.symbol) ++
  (sd.financial_statements.take 3).map (·.symbol)

/-- Symbol-identity check of `_assess_consistency` (lines 395-399):
the set (`dedup`) must have exactly one element. -/
def symbolCheck (sd : StockData) : ℚ × Option String :=
  let syms := (consistencySymbolList sd).dedup
  if syms.length = 1 then (100, none)
  else (50, some ("Symbol inconsistency: " ++ toString syms))

/-- Ascending insertion, modelling Python `list.sort()`. -/
def insertSorted (x : Int) : List Int → List Int
  | [] => [x]
  | y :: ys => if x ≤ y then x :: y :: ys else y :: insertSorted x ys

/-- Ascending sort, modelling Python `list.sort()`. -/
def sortDates (l : List Int) : List Int := l.foldr insertSorted []

/-- Number of consecutive gaps of more than 3 days (lines 406-411). -/
def countGaps : List Int → Nat
  | a :: b :: rest => (if b - a > 3 then 1 else 0) + countGaps (b :: rest)
  | _ => 0

/-- Trading-day gap check of `_assess_consistency` (lines 401-419),
over the first 30 sorted dates. -/
def dateGapCheck (sd : StockData) : ℚ × Option String :=
  let dates := sortDates (sd.historical_prices.map (·.date))
  let gaps := countGaps (dates.take 30)
  if gaps = 0 then (100, none)
  else if gaps ≤ 2 then (80, none)
  else (60, some ("Date gaps in historical prices: " ++ toString gaps ++ " gaps found"))

/-- Consecutive differences of a list (the `intervals` of lines
427-430). -/
def consecDiffs : List Int → List Int
  | a :: b :: rest => (b - a) :: consecDiffs (b :: rest)
  | _ => []

/-- Classification of the average statement interval (lines 432-442):
quarterly 80-100 and annual 350-380 score 100, semi-annual 160-200
scores 90, anything else scores 70 with an issue. -/
def intervalContribution (avg : ℚ) : ℚ × Option String :=
  if 80 ≤ avg ∧ avg ≤ 100 then (100, none)
  else if 350 ≤ avg ∧ avg ≤ 380 then (100, none)
  else if 160 ≤ avg ∧ avg ≤ 200 then (90, none)
  else (70, some ("Irregular financial statement intervals: avg " ++
    toString (round avg) ++ " days"))

/-- Statement-interval block of `_assess_consistency` (lines 421-442),
guarded by `if intervals:`. -/
def statementIntervalCheck (sd : StockData) : List (ℚ × Option String) :=
  let diffs := consecDiffs (sortDates (sd.financial_statements.map (·.period_ending)))
  if diffs ≠ [] then [intervalContribution (qMean (diffs.map (fun i => (i : ℚ))))]
  else []

/-- Sample variance (`statistics.stdev` squared), used for the 3-sigma
outlier rule. -/
def sampleVar (l : List ℚ) : ℚ :=
  ((l.map (fun x => (x - qMean l) ^ 2)).sum) / ((l.length : ℚ) - 1)

/-- Truthy closes of the first 30 historical points (line 446). -/
def closesForOutliers (sd : StockData) : List ℚ :=
  (sd.historical_prices.take 30).filterMap
    (fun p => if p.close_price ≠ 0 then some p.close_price else none)

/-- Outlier block of `_assess_consistency` (lines 444-464).  The test
`abs(x - mean) > 3 * stdev` is expressed with both sides squared,
`(x - mean)^2 > 9 * sampleVar`, staying inside `ℚ`. -/
def outlierCheck (sd : StockData) : List (ℚ × Option String) :=
  let prices := closesForOutliers sd
  if prices.length > 5 then
    let m := qMean prices
    let v := if prices.length > 1 then sampleVar prices else 0
    let outliers := (prices.filter (fun x => decide ((x - m) ^ 2 > 9 * v))).length
    let frac : ℚ := (outliers : ℚ) / (prices.length : ℚ)
    if frac ≤ 0.05 then [(100, none)]
    else if frac ≤ 0.10 then [(80, none)]
    else [(60, some ("Price outliers detected: " ++ toString outliers ++ "/" ++
      toString prices.length))]
  else []

/-- The `consistency_checks` list of `_assess_consistency` (lines
370-474) in source order, paired with the issue (if any) each check
appends. -/
def consistencyChecks (sd : StockData) : List (ℚ × Option String) :=
  [symbolCheck sd] ++
  (if sd.historical_prices.length > 1 then [dateGapCheck sd] else []) ++
  (if sd.financial_statements.length > 1 then statementIntervalCheck sd else []) ++
  (if sd.historical_prices.length > 10 then outlierCheck sd else [])

/-- `DataQualityService._assess_consistency` (lines 370-474): mean of
the checks (0 when none) together with the issue strings appended. -/
def assessConsistency (sd : StockData) : ℚ × List String :=
  let checks := consistencyChecks sd
  (if checks ≠ [] then qMean (checks.map Prod.fst) else 0,
   checks.filterMap Prod.snd)

/-- Python `round(x, 2)`: round to two decimal places (idealised
round-to-nearest over `ℚ`). -/
def round2 (q : ℚ) : ℚ := ((round (q * 100) : ℤ) : ℚ) / 100

/-- `DataQualityService.quality_weights` dictionary (lines 38-43). -/
def qualityWeights (k : String) : ℚ :=
  if k = "completeness" then 0.4
  else if k = "freshness" then 0.3
  else if k = "accuracy" then 0.2
  else if k = "consistency" then 0.1
  else 0

/-- `DataQualityService.assess_stock_data_quality` (lines 45-101): the
four sub-assessments combined with the fixed weights, each stored score
rounded to two decimals.  The `except` fallback returning all-zero
metrics is unreachable in the total embedding. -/
def assessStockDataQuality (today : Int) (now : ℚ) (sd : StockData)
    (data_source : DataSource) : DataQualityMetrics :=
  let completeness_score := assessCompleteness today sd
  let freshness_score := assessFreshness today now sd
  let accuracy_score := assessAccuracy sd
  let consistency_score := (assessConsistency sd).1
  let quality_score :=
    completeness_score * qualityWeights "completeness" +
    freshness_score * qualityWeights "freshness" +
    accuracy_score * qualityWeights "accuracy" +
    consistency_score * qualityWeights "consistency"
  { symbol := sd.symbol, data_source := data_source,
    data_type := DataType.stock_price,
    quality_score := round2 quality_score,
    completeness_score := round2 completeness_score,
    freshness_score := round2 freshness_score,
    accuracy_score := round2 accuracy_score }

/-! ## Bounds of the quality sub-scores -/

theorem b2n_le_one (b : Bool) : b2n b ≤ 1 := by cases b <;> simp [b2n]

/-- A ratio of counts, scaled to a percentage, lies in [0, 100]. -/
theorem ratio_bounds (a b : Nat) (hab : a ≤ b) (hb : 0 < b) :
    0 ≤ (a : ℚ) / (b : ℚ) * 100 ∧ (a : ℚ) / (b : ℚ) * 100 ≤ 100 := by
  have hb' : (0 : ℚ) < b := by exact_mod_cast hb
  constructor
  · positivity
  · have h1 : (a : ℚ) / b ≤ 1 := by
      rw [div_le_one hb']
      exact_mod_cast hab
    nlinarith

/-- The arithmetic mean of a list of values in [0, 100] lies in
[0, 100] (and is 0 for the empty list). -/
theorem qMean_bounds (l : List ℚ) (h0 : ∀ x ∈ l, 0 ≤ x) (h1 : ∀ x ∈ l, x ≤ 100) :
    0 ≤ qMean l ∧ qMean l ≤ 100 := by
  unfold qMean
  rcases eq_or_ne l [] with rfl | hne
  · simp
  · have hlen : (0 : ℚ) < l.length := by
      exact_mod_cast List.length_pos.mpr hne
    constructor
    · exact div_nonneg (List.sum_nonneg h0) hlen.le
    · rw [div_le_iff hlen]
      have := List.sum_le_card_nsmul l 100 h1
      simpa [nsmul_eq_mul, mul_comm] using this

theorem completenessCompany_le (o : Option CompanyInfo) :
    (completenessCompany o).1 ≤ (completenessCompany o).2 := by
  cases o with
  | none => simp [completenessCompany]
  | some ci =>
      simp only [completenessCompany]
      have h1 := b2n_le_one ci.sector.isSome
      have h2 := b2n_le_one ci.industry.isSome
      have h3 := b2n_le_one ci.market_cap.isSome
      have h4 := b2n_le_one ci.trailing_pe.isSome
      have h5 := b2n_le_one ci.beta.isSome
      have h6 := b2n_le_one ci.description.isSome
      omega

theorem completenessPrice_le (o : Option StockPrice) :
    (completenessPrice o).1 ≤ (completenessPrice o).2 := by
  cases o with
  | none => simp [completenessPrice]
  | some p =>
      simp only [completenessPrice]
      have h1 := b2n_le_one p.open_price.isSome
      have h2 := b2n_le_one p.high_price.isSome
      have h3 := b2n_le_one p.low_price.isSome
      have h4 := b2n_le_one p.volume.isSome
      omega

theorem completenessHistorical_le (ps : List StockPrice) :
    (completenessHistorical ps).1 ≤ (completenessHistorical ps).2 := by
  unfold completenessHistorical
  split_ifs <;> simp

theorem stmtComponentsCompleted_le (s : FinancialStatement) :
    stmtComponentsCompleted s ≤ 3 := by
  unfold stmtComponentsCompleted
  have h1 := b2n_le_one s.income_statement.isSome
  have h2 := b2n_le_one s.balance_sheet.isSome
  have h3 := b2n_le_one s.cash_flow_statement.isSome
  omega

theorem sum_stmtComponents_le (l : List FinancialStatement) :
    (l.map stmtComponentsCompleted).sum ≤ 3 * l.length := by
  induction l with
  | nil => simp
  | cons s ss ih =>
      simp only [List.map_cons, List.sum_cons, List.length_cons]
      have := stmtComponentsCompleted_le s
      omega

theorem completenessStatements_le (today : Int) (stmts : List FinancialStatement) :
    (completenessStatements today stmts).1 ≤ (completenessStatements today stmts).2 := by
  have hsum := sum_stmtComponents_le ((recentStatements today stmts).take 2)
  unfold completenessStatements
  dsimp only
  split_ifs <;> dsimp only <;> omega

/-- C1 helper: completeness is a percentage in [0, 100]. -/
theorem assessCompleteness_bounds (today : Int) (sd : StockData) :
    0 ≤ assessCompleteness today sd ∧ assessCompleteness today sd ≤ 100 := by
  unfold assessCompleteness
  dsimp only
  split_ifs with h
  · exact ratio_bounds _ _
      (Nat.add_le_add (Nat.add_le_add (Nat.add_le_add
        (completenessCompany_le sd.company_info)
        (completenessPrice_le sd.current_price))
        (completenessHistorical_le sd.historical_prices))
        (completenessStatements_le today sd.financial_statements)) h
  · norm_num

theorem priceFreshness_bounds (today : Int) (o : Option StockPrice) :
    0 ≤ priceFreshness today o ∧ priceFreshness today o ≤ 100 := by
  cases o with
  | none => simp [priceFreshness]
  | some p =>
      simp only [priceFreshness]
      split_ifs <;> norm_num

theorem histFreshness_bounds (today : Int) (ps : List StockPrice) :
    0 ≤ histFreshness today ps ∧ histFreshness today ps ≤ 100 := by
  unfold histFreshness
  dsimp only
  split_ifs <;> norm_num

theorem stmtFreshness_bounds (today : Int) (stmts : List FinancialStatement) :
    0 ≤ stmtFreshness today stmts ∧ stmtFreshness today stmts ≤ 100 := by
  unfold stmtFreshness
  dsimp only
  split_ifs <;> norm_num

theorem updatedFreshness_bounds (now : ℚ) (sd : StockData) :
    0 ≤ updatedFreshness now sd ∧ updatedFreshness now sd ≤ 100 := by
  unfold updatedFreshness
  dsimp only
  split_ifs <;> norm_num

/-- C1 helper: freshness is a mean of staircase values in [0, 100]. -/
theorem assessFreshness_bounds (today : Int) (now : ℚ) (sd : StockData) :
    0 ≤ assessFreshness today now sd ∧ assessFreshness today now sd ≤ 100 := by
  unfold assessFreshness
  dsimp only
  split_ifs with h
  · apply qMean_bounds <;>
      intro x hx <;>
      simp only [List.mem_cons, List.not_mem_nil, or_false] at hx <;>
      rcases hx with rfl | rfl | rfl | rfl
    · exact (priceFreshness_bounds today sd.current_price).1
    · exact (histFreshness_bounds today sd.historical_prices).1
    · exact (stmtFreshness_bounds today sd.financial_statements).1
    · exact (updatedFreshness_bounds now sd).1
    · exact (priceFreshness_bounds today sd.current_price).2
    · exact (histFreshness_bounds today sd.historical_prices).2
    · exact (stmtFreshness_bounds today sd.financial_statements).2
    · exact (updatedFreshness_bounds now sd).2
  · norm_num

theorem validatePriceData_bounds (p : StockPrice) :
    0 ≤ validatePriceData p ∧ validatePriceData p ≤ 100 := by
  obtain ⟨sym, d, o, hi, lo, c, a, vol⟩ := p
  simp only [validatePriceData]
  constructor
  · exact le_max_left _ _
  · apply max_le (by norm_num)
    cases vol <;> dsimp only <;> split_ifs <;> norm_num

theorem validateFinancialStatement_bounds (stmt : FinancialStatement) :
    0 ≤ validateFinancialStatement stmt ∧ validateFinancialStatement stmt ≤ 100 := by
  obtain ⟨sym, pe, inc, bs, cf⟩ := stmt
  simp only [validateFinancialStatement]
  split_ifs with h
  · norm_num
  · constructor
    · exact le_max_left _ _
    · apply max_le (by norm_num)
      cases inc <;> cases bs <;> dsimp only <;>
        first
        | (norm_num; done)
        | (split_ifs <;> norm_num)

theorem validateCompanyInfo_bounds (ci : CompanyInfo) :
    0 ≤ validateCompanyInfo ci ∧ validateCompanyInfo ci ≤ 100 := by
  simp only [validateCompanyInfo]
  constructor
  · exact le_max_left _ _
  · apply max_le (by norm_num)
    split_ifs <;> norm_num

theorem historicalPriceAccuracy_bounds (ps : List StockPrice) :
    0 ≤ historicalPriceAccuracy ps ∧ historicalPriceAccuracy ps ≤ 100 := by
  unfold historicalPriceAccuracy
  dsimp only
  split_ifs with h
  · refine ratio_bounds _ _ ?_ h
    calc ((ps.take 30).filter (fun p => validatePriceData p != 0)).length
        ≤ (ps.take 30).length := List.length_filter_le _ _
      _ ≤ ps.length := by simpa using List.length_take_le 30 ps
  · norm_num

theorem statementAccuracy_bounds (stmts : List FinancialStatement) :
    0 ≤ statementAccuracy stmts ∧ statementAccuracy stmts ≤ 100 := by
  unfold statementAccuracy
  dsimp only
  split_ifs with h
  · exact ratio_bounds _ _ (List.length_filter_le _ _) h
  · norm_num

theorem accuracyChecks_bounds (sd : StockData) :
    ∀ x ∈ accuracyChecks sd, 0 ≤ x ∧ x ≤ 100 := by
  intro x hx
  unfold accuracyChecks at hx
  simp only [List.mem_append] at hx
  rcases hx with ((h | h) | h) | h
  · rcases List.mem_map.mp h with ⟨p, _, rfl⟩
    exact validatePriceData_bounds p
  · revert h
    split_ifs <;> intro h
    · rw [List.mem_singleton] at h
      subst h
      exact historicalPriceAccuracy_bounds sd.historical_prices
    · simp at h
  · revert h
    split_ifs <;> intro h
    · rw [List.mem_singleton] at h
      subst h
      exact statementAccuracy_bounds sd.financial_statements
    · simp at h
  · rcases List.mem_map.mp h with ⟨ci, _, rfl⟩
    exact validateCompanyInfo_bounds ci

/-- C1 helper: accuracy is a mean of checks in [0, 100]. -/
theorem assessAccuracy_bounds (sd : StockData) :
    0 ≤ assessAccuracy sd ∧ assessAccuracy sd ≤ 100 := by
  unfold assessAccuracy
  split_ifs with h
  · exact qMean_bounds _ (fun x hx => (accuracyChecks_bounds sd x hx).1)
      (fun x hx => (accuracyChecks_bounds sd x hx).2)
  · norm_num

theorem symbolCheck_fst_bounds (sd : StockData) :
    0 ≤ (symbolCheck sd).1 ∧ (symbolCheck sd).1 ≤ 100 := by
  unfold symbolCheck
  dsimp only
  split_ifs <;> norm_num

theorem dateGapCheck_fst_bounds (sd : StockData) :
    0 ≤ (dateGapCheck sd).1 ∧ (dateGapCheck sd).1 ≤ 100 := by
  unfold dateGapCheck
  dsimp only
  split_ifs <;> norm_num

theorem intervalContribution_fst_bounds (avg : ℚ) :
    0 ≤ (intervalContribution avg).1 ∧ (intervalContribution avg).1 ≤ 100 := by
  unfold intervalContribution
  split_ifs <;> norm_num

theorem statementIntervalCheck_bounds (sd : StockData) :
    ∀ pr ∈ statementIntervalCheck sd, 0 ≤ pr.1 ∧ pr.1 ≤ 100 := by
  intro pr hpr
  unfold statementIntervalCheck at hpr
  dsimp only at hpr
  revert hpr
  split_ifs <;> intro hpr
  · rw [List.mem_singleton] at hpr
    subst hpr
    exact intervalContribution_fst_bounds _
  · simp at hpr

theorem outlierCheck_bounds (sd : StockData) :
    ∀ pr ∈ outlierCheck sd, 0 ≤ pr.1 ∧ pr.1 ≤ 100 := by
  intro pr hpr
  unfold outlierCheck at hpr
  dsimp only at hpr
  revert hpr
  split_ifs <;> intro hpr <;>
    simp only [List.mem_singleton, List.not_mem_nil] at hpr <;>
    first
    | (subst hpr; norm_num)
    | exact hpr.elim

theorem consistencyChecks_bounds (sd : StockData) :
    ∀ pr ∈ consistencyChecks sd, 0 ≤ pr.1 ∧ pr.1 ≤ 100 := by
  intro pr hpr
  unfold consistencyChecks at hpr
  simp only [List.mem_append, List.mem_singleton] at hpr
  rcases hpr with ((h | h) | h) | h
  · subst h
    exact symbolCheck_fst_bounds sd
  · revert h
    split_ifs <;> intro h
    · rw [List.mem_singleton] at h
      subst h
      exact dateGapCheck_fst_bounds sd
    · simp at h
  · revert h
    split_ifs <;> intro h
    · exact statementIntervalCheck_bounds sd _ h
    · simp at h
  · revert h
    split_ifs <;> intro h
    · exact outlierCheck_bounds sd _ h
    · simp at h

/-- C1 helper: consistency is a mean of checks in [0, 100]. -/
theorem assessConsistency_bounds (sd : StockData) :
    0 ≤ (assessConsistency sd).1 ∧ (assessConsistency sd).1 ≤ 100 := by
  unfold assessConsistency
  dsimp only
  split_ifs with h
  · apply qMean_bounds <;> intro x hx <;>
      rcases List.mem_map.mp hx with ⟨pr, hpr, rfl⟩
    · exact (consistencyChecks_bounds sd pr hpr).1
    · exact (consistencyChecks_bounds sd pr hpr).2
  · norm_num

/-- Rounding to two decimals keeps a score inside [0, 100]. -/
theorem round2_bounds (q : ℚ) (h0 : 0 ≤ q) (h1 : q ≤ 100) :
    0 ≤ round2 q ∧ round2 q ≤ 100 := by
  unfold round2
  have hlow : (0 : ℤ) ≤ round (q * 100) := by
    rw [round_eq]
    exact Int.floor_nonneg.mpr (by linarith)
  have hfl : ((round (q * 100) : ℤ) : ℚ) ≤ q * 100 + 1 / 2 := by
    rw [round_eq]
    push_cast
    exact Int.floor_le _
  have hlt : ((round (q * 100) : ℤ) : ℚ) < 10001 := by linarith
  have hle : (round (q * 100) : ℤ) ≤ 10000 := by
    have : (round (q * 100) : ℤ) < 10001 := by exact_mod_cast hlt
    omega
  constructor
  · apply div_nonneg _ (by norm_num)
    exact_mod_cast hlow
  · rw [div_le_iff (by norm_num : (0:ℚ) < 100)]
    calc ((round (q * 100) : ℤ) : ℚ) ≤ 10000 := by exact_mod_cast hle
      _ = 100 * 100 := by norm_num

theorem qualityWeights_completeness : qualityWeights "completeness" = 0.4 := rfl

theorem qualityWeights_freshness : qualityWeights "freshness" = 0.3 := rfl

theorem qualityWeights_accuracy : qualityWeights "accuracy" = 0.2 := rfl

theorem qualityWeights_consistency : qualityWeights "consistency" = 0.1 := rfl

/-- C1: for every record and source, the four sub-scores and the overall
score of `assess_stock_data_quality` lie in [0, 100]; the stored scores
(rounded to two decimals) also lie in [0, 100]; and the overall score is
exactly `0.4*completeness + 0.3*freshness + 0.2*accuracy +
0.1*consistency`, rounded to two decimals.  The record is arbitrary —
including an empty/default one — and the embedded assessment is a total
function, mirroring the source's catch-all exception handling. -/
theorem c1_quality_assessment_bounds_and_formula (today : Int) (now : ℚ)
    (sd : StockData) (source : DataSource) :
    let m := assessStockDataQuality today now sd source
    (0 ≤ assessCompleteness today sd ∧ assessCompleteness today sd ≤ 100) ∧
    (0 ≤ assessFreshness today now sd ∧ assessFreshness today now sd ≤ 100) ∧
    (0 ≤ assessAccuracy sd ∧ assessAccuracy sd ≤ 100) ∧
    (0 ≤ (assessConsistency sd).1 ∧ (assessConsistency sd).1 ≤ 100) ∧
    (0 ≤ m.quality_score ∧ m.quality_score ≤ 100) ∧
    (0 ≤ m.completeness_score ∧ m.completeness_score ≤ 100) ∧
    (0 ≤ m.freshness_score ∧ m.freshness_score ≤ 100) ∧
    (0 ≤ m.accuracy_score ∧ m.accuracy_score ≤ 100) ∧
    m.quality_score = round2 (0.4 * assessCompleteness today sd +
      0.3 * assessFreshness today now sd + 0.2 * assessAccuracy sd +
      0.1 * (assessConsistency sd).1) := by
  intro m
  have hc := assessCompleteness_bounds today sd
  have hf := assessFreshness_bounds today now sd
  have ha := assessAccuracy_bounds sd
  have hk := assessConsistency_bounds sd
  have hq : m.quality_score = round2 (0.4 * assessCompleteness today sd +
      0.3 * assessFreshness today now sd + 0.2 * assessAccuracy sd +
      0.1 * (assessConsistency sd).1) := by
    show (assessStockDataQuality today now sd source).quality_score = _
    simp only [assessStockDataQuality, qualityWeights_completeness,
      qualityWeights_freshness, qualityWeights_accuracy, qualityWeights_consistency]
    ring_nf
  refine ⟨hc, hf, ha, hk, ?_, ?_, ?_, ?_, hq⟩
  · rw [hq]
    exact round2_bounds _ (by linarith [hc.1, hf.1, ha.1, hk.1])
      (by linarith [hc.2, hf.2, ha.2, hk.2])
  · exact round2_bounds _ hc.1 hc.2
  · exact round2_bounds _ hf.1 hf.2
  · exact round2_bounds _ ha.1 ha.2

/-! ## Orchestrator (`data_service.py`) -/

/-- `DataService.data_source_priority` (data_service.py line 82):
primary then fallback. -/
def dataSourcePriority : List DataSource :=
  [DataSource.yahoo_finance, DataSource.alpha_vantage]

/-- The candidate list of `get_stock_data` (line 131): `[preferred]`
when a preferred source is given, else the fixed priority order. -/
def sourcesToTry : Option DataSource → List DataSource
  | some preferred => [preferred]
  | none => dataSourcePriority

/-- The environment one `get_stock_data` call runs against, for the
requested symbol: the cache content, the adapter outcome per source
(`none` models both "no data" and an adapter-level exception — the
helpers `_get_data_from_yahoo` / `_get_data_from_alpha_vantage`, lines
190-207, catch every exception and return `None`), the feature flags of
`__init__`, and the clock. -/
structure OrchestratorEnv where
  cached : Option StockData
  yahooResult : Option StockData
  alphaResult : Option StockData
  cacheEnabled : Bool
  qaEnabled : Bool
  today : Int
  now : ℚ

/-- Adapter dispatch of the fallback loop (lines 139-143).  The fetch
helpers call `_update_rate_limit` for their source before fetching; a
`preferred_source` of `manual` matches neither `if` branch and leaves
`stock_data = None`. -/
def fetchStep (env : OrchestratorEnv) (st : ServiceState) :
    DataSource → Option StockData × ServiceState
  | DataSource.yahoo_finance =>
      (env.yahooResult, updateRateLimit st DataSource.yahoo_finance)
  | DataSource.alpha_vantage =>
      (env.alphaResult, updateRateLimit st DataSource.alpha_vantage)
  | DataSource.manual => (none, st)

/-- The source fallback loop of `get_stock_data` (lines 133-152): skip
a source whose rate-limit check denies (lines 135-137); otherwise fetch
(adapter failures already collapsed to `none`) and stop at the first
source yielding data (lines 145-147). -/
def trySources (env : OrchestratorEnv) :
    ServiceState → List DataSource → Option (DataSource × StockData) × ServiceState
  | st, [] => (none, st)
  | st, source :: rest =>
      let chk := checkRateLimit env.now st source
      if !chk.1 then trySources env chk.2 rest
      else
        let fetched := fetchStep env chk.2 source
        match fetched.1 with
        | some r => (some (source, r), fetched.2)
        | none => trySources env fetched.2 rest

/-- Quality attachment of `get_stock_data` (lines 159-171): when
assessment is enabled, the report for the winning source is attached to
the returned record; every other field is untouched. -/
def attachQuality (env : OrchestratorEnv) (source : DataSource) (r : StockData) :
    StockData :=
  if env.qaEnabled then
    { r with data_quality := some (assessStockDataQuality env.today env.now r source) }
  else r

/-- `DataService.get_stock_data` (lines 93-188): cache-aside lookup
(lines 115-128), candidate determination (line 131), fallback loop,
quality attachment, and `None` when every candidate fails (lines
154-156).  The cache write and metrics counters do not change the
returned value and are not modelled; the outer catch-all except only
fires on internal faults, of which the total embedding has none. -/
def getStockData (env : OrchestratorEnv) (st : ServiceState) (force_refresh : Bool)
    (preferred_source : Option DataSource) : Option StockData × ServiceState :=
  if !force_refresh && env.cacheEnabled && env.cached.isSome then (env.cached, st)
  else
    let res := trySources env st (sourcesToTry preferred_source)
    match res.1 with
    | none => (none, res.2)
    | some (source, r) => (some (attachQuality env source r), res.2)

/-- A denied source is skipped: the loop continues on the remaining
candidates from the post-check state. -/
theorem trySources_denied_step (env : OrchestratorEnv) (st : ServiceState)
    (source : DataSource) (rest : List DataSource)
    (hdeny : (checkRateLimit env.now st source).1 = false) :
    trySources env st (source :: rest) =
      trySources env (checkRateLimit env.now st source).2 rest := by
  conv_lhs => unfold trySources
  dsimp only
  rw [hdeny]
  simp

/-- An allowed source that yields data stops the loop with its record. -/
theorem trySources_allowed_step (env : OrchestratorEnv) (st : ServiceState)
    (source : DataSource) (rest : List DataSource) (r : StockData)
    (hallow : (checkRateLimit env.now st source).1 = true)
    (hfetch : (fetchStep env (checkRateLimit env.now st source).2 source).1 = some r) :
    trySources env st (source :: rest) =
      (some (source, r), (fetchStep env (checkRateLimit env.now st source).2 source).2) := by
  conv_lhs => unfold trySources
  dsimp only
  rw [hallow]
  simp only [Bool.not_true, Bool.false_eq_true, if_false]
  rw [hfetch]

/-- An allowed source whose fetch yields no data (its adapter returned
nothing or raised, both collapsed to `none` by the fetch helpers'
catch-alls) is passed over: the loop continues on the remaining
candidates from the post-fetch state. -/
theorem trySources_nodata_step (env : OrchestratorEnv) (st : ServiceState)
    (source : DataSource) (rest : List DataSource)
    (hallow : (checkRateLimit env.now st source).1 = true)
    (hfetch : (fetchStep env (checkRateLimit env.now st source).2 source).1 = none) :
    trySources env st (source :: rest) =
      trySources env (fetchStep env (checkRateLimit env.now st source).2 source).2 rest := by
  conv_lhs => unfold trySources
  dsimp only
  rw [hallow]
  simp only [Bool.not_true, Bool.false_eq_true, if_false]
  rw [hfetch]

/-- When both adapters yield nothing, the loop yields nothing. -/
theorem trySources_none (env : OrchestratorEnv)
    (hy : env.yahooResult = none) (ha : env.alphaResult = none) :
    ∀ srcs : List DataSource, ∀ st : ServiceState,
      (trySources env st srcs).1 = none := by
  intro srcs
  induction srcs with
  | nil => intro st; rfl
  | cons s rest ih =>
      intro st
      unfold trySources
      dsimp only
      split_ifs
      · exact ih _
      · cases s <;> simp only [fetchStep, hy, ha] <;> exact ih _

/-- C2: `get_stock_data` consults `[preferred]` or the fixed priority
Yahoo-then-Alpha order, skips a source whose rate-limit check denies,
continues past an allowed source whose fetch yields no data (adapter
raises included — the fetch helpers collapse them to `None`), returns
the record built by the first source that yields data — in particular
the secondary's record both when the primary is rate-limited and when
the primary is allowed but yields nothing — and returns `None` (not an
exception) when no candidate yields data.  The attached quality report
is the only field the winning record gains on the way out. -/
theorem c2_get_stock_data_fallback (env : OrchestratorEnv) (st : ServiceState)
    (hmiss : env.cached = none) :
    (∀ p, sourcesToTry (some p) = [p]) ∧
    sourcesToTry none = [DataSource.yahoo_finance, DataSource.alpha_vantage] ∧
    (∀ (source : DataSource) (rest : List DataSource) (st' : ServiceState),
      (checkRateLimit env.now st' source).1 = false →
      trySources env st' (source :: rest) =
        trySources env (checkRateLimit env.now st' source).2 rest) ∧
    (∀ (source : DataSource) (rest : List DataSource) (st' : ServiceState),
      (checkRateLimit env.now st' source).1 = true →
      (fetchStep env (checkRateLimit env.now st' source).2 source).1 = none →
      trySources env st' (source :: rest) =
        trySources env (fetchStep env (checkRateLimit env.now st' source).2 source).2 rest) ∧
    (∀ r : StockData,
      (checkRateLimit env.now st DataSource.yahoo_finance).1 = false →
      (checkRateLimit env.now (checkRateLimit env.now st DataSource.yahoo_finance).2
          DataSource.alpha_vantage).1 = true →
      env.alphaResult = some r →
      (getStockData env st false none).1 =
        some (attachQuality env DataSource.alpha_vantage r)) ∧
    (∀ r : StockData,
      (checkRateLimit env.now st DataSource.yahoo_finance).1 = true →
      env.yahooResult = none →
      (checkRateLimit env.now
          (updateRateLimit (checkRateLimit env.now st DataSource.yahoo_finance).2
            DataSource.yahoo_finance)
          DataSource.alpha_vantage).1 = true →
      env.alphaResult = some r →
      (getStockData env st false none).1 =
        some (attachQuality env DataSource.alpha_vantage r)) ∧
    (∀ (force_refresh : Bool) (pref : Option DataSource),
      env.yahooResult = none → env.alphaResult = none →
      (getStockData env st force_refresh pref).1 = none) ∧
    (∀ (source : DataSource) (r : StockData),
      (attachQuality env source r).symbol = r.symbol ∧
      (attachQuality env source r).company_info = r.company_info ∧
      (attachQuality env source r).current_price = r.current_price ∧
      (attachQuality env source r).historical_prices = r.historical_prices ∧
      (attachQuality env source r).financial_statements = r.financial_statements ∧
      (attachQuality env source r).last_updated = r.last_updated) := by
  refine ⟨fun p => rfl, rfl,
    fun source rest st' hdeny => trySources_denied_step env st' source rest hdeny,
    fun source rest st' hallow hempty =>
      trySources_nodata_step env st' source rest hallow hempty,
    ?_, ?_, ?_, ?_⟩
  · intro r hy ha hr
    have hstep1 := trySources_denied_step env st DataSource.yahoo_finance
      [DataSource.alpha_vantage] hy
    have hstep2 := trySources_allowed_step env
      (checkRateLimit env.now st DataSource.yahoo_finance).2 DataSource.alpha_vantage [] r ha
      (by simp [fetchStep, hr])
    have hcond : (!false && env.cacheEnabled && env.cached.isSome) = false := by
      rw [hmiss]; simp
    unfold getStockData
    dsimp only
    rw [hcond]
    simp only [Bool.false_eq_true, if_false]
    show (match (trySources env st (sourcesToTry none)).1 with
      | none => ((none : Option StockData), (trySources env st (sourcesToTry none)).2)
      | some (source, r) =>
          (some (attachQuality env source r), (trySources env st (sourcesToTry none)).2)).1 = _
    rw [show sourcesToTry none = [DataSource.yahoo_finance, DataSource.alpha_vantage] from rfl,
      hstep1, hstep2]
  · intro r hyallow hynone ha hr
    have hstep1 := trySources_nodata_step env st DataSource.yahoo_finance
      [DataSource.alpha_vantage] hyallow (by simp [fetchStep, hynone])
    have hstep2 := trySources_allowed_step env
      (fetchStep env (checkRateLimit env.now st DataSource.yahoo_finance).2
        DataSource.yahoo_finance).2
      DataSource.alpha_vantage [] r ha (by simp [fetchStep, hr])
    have hcond : (!false && env.cacheEnabled && env.cached.isSome) = false := by
      rw [hmiss]; simp
    unfold getStockData
    dsimp only
    rw [hcond]
    simp only [Bool.false_eq_true, if_false]
    show (match (trySources env st (sourcesToTry none)).1 with
      | none => ((none : Option StockData), (trySources env st (sourcesToTry none)).2)
      | some (source, r) =>
          (some (attachQuality env source r), (trySources env st (sourcesToTry none)).2)).1 = _
    rw [show sourcesToTry none = [DataSource.yahoo_finance, DataSource.alpha_vantage] from rfl,
      hstep1, hstep2]
  · intro force_refresh pref hy ha
    have hnone := trySources_none env hy ha (sourcesToTry pref) st
    have hcond : (!force_refresh && env.cacheEnabled && env.cached.isSome) = false := by
      rw [hmiss]; simp
    unfold getStockData
    dsimp only
    rw [hcond]
    simp only [Bool.false_eq_true, if_false]
    show (match (trySources env st (sourcesToTry pref)).1 with
      | none => ((none : Option StockData), (trySources env st (sourcesToTry pref)).2)
      | some (source, r) =>
          (some (attachQuality env source r), (trySources env st (sourcesToTry pref)).2)).1 = _
    rw [hnone]
  · intro source r
    unfold attachQuality
    split_ifs <;> simp

/-- Witness for C2, both fallback scenarios: with Yahoo Finance at its
limit inside the window the source is skipped and Alpha Vantage's
record is returned; with a fresh Yahoo Finance budget whose fetch
yields no data the loop continues past it and still returns Alpha
Vantage's record. -/
theorem c2_get_stock_data_fallback_witness :
    let rec0 : StockData :=
      { symbol := "AAPL", company_info := none, current_price := none,
        historical_prices := [], financial_statements := [],
        data_quality := none, last_updated := 0 }
    let env : OrchestratorEnv :=
      { cached := none, yahooResult := none, alphaResult := some rec0,
        cacheEnabled := true, qaEnabled := false, today := 0, now := 0 }
    let st : ServiceState :=
      { rate_limits := fun s =>
          if s = DataSource.yahoo_finance then
            some { api_name := "yahoo_finance", endpoint := "general",
                   requests_made := 2000, requests_limit := 2000, reset_time := 3600 }
          else if s = DataSource.alpha_vantage then
            some { api_name := "alpha_vantage", endpoint := "general",
                   requests_made := 0, requests_limit := 500, reset_time := 86400 }
          else none }
    let stFresh : ServiceState :=
      { rate_limits := fun s =>
          if s = DataSource.yahoo_finance then
            some { api_name := "yahoo_finance", endpoint := "general",
                   requests_made := 0, requests_limit := 2000, reset_time := 3600 }
          else if s = DataSource.alpha_vantage then
            some { api_name := "alpha_vantage", endpoint := "general",
                   requests_made := 0, requests_limit := 500, reset_time := 86400 }
          else none }
    (getStockData env st false none).1 = some rec0 ∧
    (getStockData env stFresh false none).1 = some rec0 := by
  intro rec0 env st stFresh
  constructor
  · have h := (c2_get_stock_data_fallback env st rfl).2.2.2.2.1 rec0
      (by decide) (by decide) rfl
    simpa [attachQuality, env] using h
  · have h := (c2_get_stock_data_fallback env stFresh rfl).2.2.2.2.2.1 rec0
      (by decide) rfl (by decide) rfl
    simpa [attachQuality, env] using h

/-! ## Batch retrieval (`data_service.py`) -/

/-- `DataService.batch_get_stock_data` (lines 335-378): each symbol's
task runs `get_stock_data` (whose catch-all except makes it total,
returning `None` on any failure) and `asyncio.gather` collects the
`(symbol, data)` pairs in task order; the result dictionary is built
from those pairs.  `getData` is the per-symbol outcome of
`get_stock_data`; `max_concurrent` only bounds how many lookups are in
flight at once and cannot change the collected results; the
`isinstance(result, Exception)` skip (lines 364-366) is dead code
because the per-symbol task never raises. -/
def batchGetStockData (getData : String → Option StockData)
    (symbols : List String) (max_concurrent : Nat) :
    List (String × Option StockData) :=
  symbols.map (fun symbol => (symbol, getData symbol))

theorem batch_lookup_eq (getData : String → Option StockData)
    (symbols : List String) (max_concurrent : Nat) :
    ∀ s ∈ symbols,
      (batchGetStockData getData symbols max_concurrent).lookup s =
        some (getData s) := by
  intro s hs
  unfold batchGetStockData
  induction symbols with
  | nil => cases hs
  | cons y ys ih =>
      simp only [List.map_cons, List.lookup]
      rcases List.mem_cons.mp hs with rfl | hmem
      · simp
      · by_cases hy : s = y
        · subst hy; simp
        · have : (s == y) = false := beq_false_of_ne hy
          rw [this]
          exact ih hmem

/-- C6: the batch result contains one entry for every requested symbol
(the symbol's own `get_stock_data` outcome, `None` on failure), and one
symbol's outcome — exception or empty result — cannot change any other
symbol's entry, for every concurrency cap. -/
theorem c6_batch_completeness (getData : String → Option StockData)
    (symbols : List String) (max_concurrent : Nat) :
    ((batchGetStockData getData symbols max_concurrent).map Prod.fst = symbols) ∧
    (∀ s ∈ symbols,
      (batchGetStockData getData symbols max_concurrent).lookup s =
        some (getData s)) ∧
    (∀ getData2 : String → Option StockData, ∀ s ∈ symbols,
      getData s = getData2 s →
      (batchGetStockData getData symbols max_concurrent).lookup s =
        (batchGetStockData getData2 symbols max_concurrent).lookup s) := by
  have hkeys : (batchGetStockData getData symbols max_concurrent).map Prod.fst = symbols := by
    unfold batchGetStockData
    induction symbols with
    | nil => rfl
    | cons y ys ih => simp only [List.map_cons] at ih ⊢; rw [ih]
  refine ⟨hkeys, batch_lookup_eq getData symbols max_concurrent, ?_⟩
  intro getData2 s hs hagree
  rw [batch_lookup_eq getData symbols max_concurrent s hs,
    batch_lookup_eq getData2 symbols max_concurrent s hs, hagree]

/-- Witness for C6: three symbols, one failing, concurrency cap 2; all
three keys are present and the failure stays local. -/
theorem c6_batch_completeness_witness :
    let rec0 : StockData :=
      { symbol := "AAPL", company_info := none, current_price := none,
        historical_prices := [], financial_statements := [],
        data_quality := none, last_updated := 0 }
    let getData : String → Option StockData :=
      fun s => if s = "BADSYMBOL" then none else some rec0
    ((batchGetStockData getData ["AAPL", "BADSYMBOL", "MSFT"] 2).map Prod.fst =
      ["AAPL", "BADSYMBOL", "MSFT"]) ∧
    (batchGetStockData getData ["AAPL", "BADSYMBOL", "MSFT"] 2).lookup "AAPL" =
      some (some rec0) ∧
    (batchGetStockData getData ["AAPL", "BADSYMBOL", "MSFT"] 2).lookup "BADSYMBOL" =
      some none ∧
    (batchGetStockData getData ["AAPL", "BADSYMBOL", "MSFT"] 2).lookup "MSFT" =
      some (some rec0) := by
  intro rec0 getData
  have h := c6_batch_completeness getData ["AAPL", "BADSYMBOL", "MSFT"] 2
  refine ⟨h.1, ?_, ?_, ?_⟩
  · simpa using h.2.1 "AAPL" (by simp)
  · simpa using h.2.1 "BADSYMBOL" (by simp)
  · simpa using h.2.1 "MSFT" (by simp)

/-! ## Cache serialization (`cache_service.py`) -/

/-- The `b'COMPRESSED:'` marker (cache_service.py line 497) as UTF-8
bytes; `_deserialize` strips its 11 bytes (line 519). -/
def compressedMarker : List Nat := [67, 79, 77, 80, 82, 69, 83, 83, 69, 68, 58]

/-- `CacheService._serialize` (cache_service.py lines 475-504) over an
abstract JSON-representable value type `J`.  `jsonDumps` models
`json.dumps(...).encode('utf-8')` and `compress` models
`zlib.compress`: both are external-library functions, taken as
parameters.  When the serialized form exceeds the threshold
(`compression_threshold`, 1024 bytes by default per `__init__` line
32), it is compressed and prefixed with the marker; otherwise the raw
JSON bytes are stored.  The pickle fallback of the source is reachable
only when `json.dumps` itself raises and is not modelled. -/
def serializeData {J : Type} (jsonDumps : J → List Nat)
    (compress : List Nat → List Nat) (compression_threshold : Nat) (data : J) :
    List Nat :=
  let json_data := jsonDumps data
  if json_data.length > compression_threshold then
    compressedMarker ++ compress json_data
  else json_data

/-- `CacheService._deserialize` (cache_service.py lines 506-532): the
marker prefix is checked first; a tagged payload is stripped and
decompressed, anything else is JSON-decoded with a `pickle.loads`
fallback on decode failure.  `jsonLoads` models `json.loads` (`none`
where the source raises `JSONDecodeError`), `decompress` models
`zlib.decompress`, `pickleLoads` the fallback. -/
def deserializeData {J : Type} (jsonLoads : List Nat → Option J)
    (decompress : List Nat → List Nat) (pickleLoads : List Nat → Option J)
    (data : List Nat) : Option J :=
  if compressedMarker.isPrefixOf data then
    jsonLoads (decompress (data.drop 11))
  else
    match jsonLoads data with
    | some v => some v
    | none => pickleLoads data

theorem isPrefixOf_append_self (l x : List Nat) : l.isPrefixOf (l ++ x) = true := by
  induction l with
  | nil => simp [List.isPrefixOf]
  | cons a as ih => simp [List.isPrefixOf, ih]

/-- The marker starts every tagged payload. -/
theorem marker_starts_tagged (x : List Nat) :
    compressedMarker.isPrefixOf (compressedMarker ++ x) = true :=
  isPrefixOf_append_self compressedMarker x

/-- A byte stream that does not start with byte 67 (`'C'`) is never
taken for a tagged payload. -/
theorem marker_not_detected (bs : List Nat) (hhead : ∀ b ∈ bs.head?, b ≠ 67) :
    compressedMarker.isPrefixOf bs = false := by
  cases bs with
  | nil => rfl
  | cons b rest =>
      have hb : b ≠ 67 := hhead b (by simp)
      show compressedMarker.isPrefixOf (b :: rest) = false
      simp only [compressedMarker, List.isPrefixOf]
      have : (67 == b) = false := beq_false_of_ne (Ne.symm hb)
      rw [this]
      rfl

/-- C5: `_deserialize ∘ _serialize` is the identity on
JSON-representable values, in both the raw branch (serialized size at
most 1024 bytes) and the compressed branch (size above 1024 bytes,
marker-tagged), under the documented library laws: `json.loads`
inverts `json.dumps`, `zlib.decompress` inverts `zlib.compress`, and a
JSON text never begins with byte 67 (JSON output starts with one of
`{ [ " - t f n` or a digit), so the marker check cannot
misclassify a raw payload. -/
theorem c5_serialize_roundtrip {J : Type} (jsonDumps : J → List Nat)
    (jsonLoads : List Nat → Option J) (compress decompress : List Nat → List Nat)
    (pickleLoads : List Nat → Option J) (v : J)
    (hjson : jsonLoads (jsonDumps v) = some v)
    (hzlib : decompress (compress (jsonDumps v)) = jsonDumps v)
    (hhead : ∀ b ∈ (jsonDumps v).head?, b ≠ 67) :
    deserializeData jsonLoads decompress pickleLoads
        (serializeData jsonDumps compress 1024 v) = some v ∧
    ((jsonDumps v).length > 1024 →
      serializeData jsonDumps compress 1024 v =
        compressedMarker ++ compress (jsonDumps v)) ∧
    ((jsonDumps v).length ≤ 1024 →
      serializeData jsonDumps compress 1024 v = jsonDumps v) := by
  refine ⟨?_, ?_, ?_⟩
  · unfold serializeData
    dsimp only
    split_ifs with hlen
    · unfold deserializeData
      rw [marker_starts_tagged]
      simp only [if_true]
      have hdrop : (compressedMarker ++ compress (jsonDumps v)).drop 11 =
          compress (jsonDumps v) := by
        have h11 : compressedMarker.length = 11 := rfl
        rw [← h11, List.drop_left]
      rw [hdrop, hzlib, hjson]
    · unfold deserializeData
      rw [marker_not_detected _ hhead]
      simp only [Bool.false_eq_true, if_false]
      rw [hjson]
  · intro hlen
    unfold serializeData
    dsimp only
    rw [if_pos hlen]
  · intro hlen
    unfold serializeData
    dsimp only
    rw [if_neg (by omega)]

/-- Toy JSON encoder used only to witness the serialization theorem:
value `n` encodes to `n + 1` copies of byte 48 (an ASCII digit, so the
encoding never starts with the marker byte 67). -/
def unaryDumps (n : Nat) : List Nat := List.replicate (n + 1) 48

/-- Toy JSON decoder, the partial inverse of `unaryDumps`. -/
def unaryLoads (bs : List Nat) : Option Nat :=
  if bs ≠ [] ∧ bs.all (· == 48) then some (bs.length - 1) else none

theorem replicate48_all (n : Nat) : (List.replicate n 48).all (· == 48) = true := by
  induction n with
  | zero => rfl
  | succ n ih => simp [List.replicate_succ, ih]

theorem unary_roundtrip (n : Nat) : unaryLoads (unaryDumps n) = some n := by
  unfold unaryLoads unaryDumps
  rw [if_pos]
  · simp
  · exact ⟨by simp, replicate48_all (n + 1)⟩

theorem unaryDumps_head (n : Nat) : ∀ b ∈ (unaryDumps n).head?, b ≠ 67 := by
  intro b hb
  simp only [unaryDumps, List.replicate_succ, List.head?_cons, Option.mem_some_iff] at hb
  omega

/-- Witness for C5: a 2001-byte payload goes through the compressed
branch and round-trips; a 4-byte payload stays raw and round-trips. -/
theorem c5_serialize_roundtrip_witness :
    deserializeData unaryLoads id (fun _ => none)
        (serializeData unaryDumps id 1024 2000) = some 2000 ∧
    serializeData unaryDumps id 1024 2000 = compressedMarker ++ unaryDumps 2000 ∧
    deserializeData unaryLoads id (fun _ => none)
        (serializeData unaryDumps id 1024 3) = some 3 ∧
    serializeData unaryDumps id 1024 3 = unaryDumps 3 := by
  have h2000 := c5_serialize_roundtrip unaryDumps unaryLoads id id (fun _ => none)
    2000 (unary_roundtrip 2000) rfl (unaryDumps_head 2000)
  have h3 := c5_serialize_roundtrip unaryDumps unaryLoads id id (fun _ => none)
    3 (unary_roundtrip 3) rfl (unaryDumps_head 3)
  refine ⟨h2000.1, ?_, h3.1, ?_⟩
  · have := h2000.2.1 (by norm_num [unaryDumps])
    simpa using this
  · exact h3.2.2 (by norm_num [unaryDumps])

/-! ## C7: the historical-price accuracy denominator -/

/-- A historical point that passes every validation check (close 10,
no OHLC fields, no volume). -/
def plainPoint : StockPrice :=
  { symbol := "AAPL", date := 0, open_price := none, high_price := none,
    low_price := none, close_price := 10, adjusted_close := none, volume := none }

/-- A record with 31 valid historical points: every point the accuracy
pass examines is valid, yet the record has one more point than the 30
examined. -/
def record31 : StockData :=
  { symbol := "AAPL", company_info := none, current_price := none,
    historical_prices := List.replicate 31 plainPoint,
    financial_statements := [], data_quality := none, last_updated := 0 }

/-- C7 counterexample: with 31 all-valid points the claim predicts a
sub-score of (valid among first min(31,30)) / min(31,30) * 100 = 100,
but the code divides the 30 validated points by all 31 and returns
3000/31 < 100 — so points beyond the 30 examined do lower the score. -/
theorem validatePriceData_plainPoint : validatePriceData plainPoint = 100 := by
  norm_num [validatePriceData, plainPoint, optTruthy]

theorem plainPoint_valid : (validatePriceData plainPoint != 0) = true := by
  rw [validatePriceData_plainPoint]
  norm_num

theorem record31_take : record31.historical_prices.take 30 =
    List.replicate 30 plainPoint := by
  show (List.replicate 31 plainPoint).take 30 = _
  rw [List.take_replicate]
  norm_num

theorem record31_filter : (record31.historical_prices.take 30).filter
    (fun p => validatePriceData p != 0) = List.replicate 30 plainPoint := by
  rw [record31_take, List.filter_eq_self]
  intro a ha
  rw [List.eq_of_mem_replicate ha]
  exact plainPoint_valid

theorem record31_hist_accuracy :
    historicalPriceAccuracy record31.historical_prices = 3000 / 31 := by
  unfold historicalPriceAccuracy
  dsimp only
  rw [if_pos (by simp [record31]), record31_filter]
  simp only [List.length_replicate]
  norm_num [record31]

theorem c7_counterexample :
    historicalPriceAccuracy record31.historical_prices = 3000 / 31 ∧
    historicalPriceAccuracy record31.historical_prices ≠ 100 ∧
    (((record31.historical_prices.take 30).filter
        (fun p => validatePriceData p != 0)).length : ℚ) /
      ((min record31.historical_prices.length 30 : Nat) : ℚ) * 100 = 100 := by
  refine ⟨record31_hist_accuracy, ?_, ?_⟩
  · rw [record31_hist_accuracy]
    norm_num
  · rw [record31_filter]
    simp only [List.length_replicate]
    norm_num [record31]

/-- C7 amended: the historical-price accuracy sub-score validates only
the up-to-30 most recent points, but divides the valid count by the
total number n of historical points: it equals
(valid among first min(n,30)) / n * 100; consequently, when n > 30 and
every point is valid, the score is strictly below 100 — points beyond
the 30 examined lower the score. -/
theorem c7_hist_accuracy_amended (sd : StockData)
    (hne : sd.historical_prices ≠ []) :
    historicalPriceAccuracy sd.historical_prices =
      (((sd.historical_prices.take 30).filter
          (fun p => validatePriceData p != 0)).length : ℚ) /
        (sd.historical_prices.length : ℚ) * 100 ∧
    (30 < sd.historical_prices.length →
      (∀ p ∈ sd.historical_prices, validatePriceData p ≠ 0) →
      historicalPriceAccuracy sd.historical_prices < 100) := by
  have hpos : 0 < sd.historical_prices.length := List.length_pos.mpr hne
  constructor
  · unfold historicalPriceAccuracy
    dsimp only
    rw [if_pos hpos]
  · intro h30 hvalid
    unfold historicalPriceAccuracy
    dsimp only
    rw [if_pos hpos]
    have hfilter : (sd.historical_prices.take 30).filter
        (fun p => validatePriceData p != 0) = sd.historical_prices.take 30 := by
      rw [List.filter_eq_self]
      intro p hp
      have := hvalid p (List.mem_of_mem_take hp)
      simpa [bne_iff_ne] using this
    rw [hfilter]
    have hlen : (sd.historical_prices.take 30).length = 30 := by
      rw [List.length_take]
      omega
    rw [hlen]
    have hn : (30 : ℚ) < sd.historical_prices.length := by exact_mod_cast h30
    have hn0 : (0 : ℚ) < sd.historical_prices.length := by linarith
    rw [div_mul_eq_mul_div, div_lt_iff hn0]
    push_cast
    nlinarith

/-- Witness for the amended C7 at the 31-point record. -/
theorem c7_hist_accuracy_amended_witness :
    historicalPriceAccuracy record31.historical_prices =
      (((record31.historical_prices.take 30).filter
          (fun p => validatePriceData p != 0)).length : ℚ) /
        (record31.historical_prices.length : ℚ) * 100 ∧
    historicalPriceAccuracy record31.historical_prices < 100 := by
  have h := c7_hist_accuracy_amended record31 (by simp [record31])
  exact ⟨h.1, h.2 (by simp [record31]) (by
    intro p hp
    have hpp : p = plainPoint := by
      simpa [record31] using List.eq_of_mem_replicate hp
    rw [hpp, validatePriceData_plainPoint]
    norm_num)⟩

/-! ## C8: the statement-interval consistency credit -/

/-- The average gap between consecutive sorted period-end dates
(`avg_interval`, data_quality_service.py line 433). -/
def avgStatementInterval (sd : StockData) : ℚ :=
  qMean ((consecDiffs (sortDates
    (sd.financial_statements.map (·.period_ending)))).map (fun i => (i : ℚ)))

def stmtP0 : FinancialStatement :=
  { symbol := "AAPL", period_ending := 0, income_statement := none,
    balance_sheet := none, cash_flow_statement := none }

def stmtP180 : FinancialStatement :=
  { symbol := "AAPL", period_ending := 180, income_statement := none,
    balance_sheet := none, cash_flow_statement := none }

/-- A record whose two statements are 180 days apart: a semi-annual
average interval. -/
def recordSemiAnnual : StockData :=
  { symbol := "AAPL", company_info := none, current_price := none,
    historical_prices := [], financial_statements := [stmtP0, stmtP180],
    data_quality := none, last_updated := 0 }

/-- C8 counterexample: a semi-annual average gap of 180 days (inside
160-200) contributes 90, not the full credit 100 the claim states; on
the two-statement record the consistency score is the mean of the
symbol check (100) and the interval check (90), i.e. 95, not 100. -/
theorem intervalContribution_180 : intervalContribution 180 = (90, none) := by
  unfold intervalContribution
  rw [if_neg (by norm_num), if_neg (by norm_num), if_pos (by norm_num)]

theorem symbolCheck_semiAnnual : symbolCheck recordSemiAnnual = (100, none) := by
  unfold symbolCheck
  dsimp only
  rw [if_pos]
  decide

theorem semiAnnual_diffs : consecDiffs (sortDates
    (recordSemiAnnual.financial_statements.map (·.period_ending))) = [180] := by
  decide

theorem statementIntervalCheck_semiAnnual :
    statementIntervalCheck recordSemiAnnual = [intervalContribution 180] := by
  unfold statementIntervalCheck
  dsimp only
  rw [semiAnnual_diffs, if_pos (by simp)]
  norm_num [qMean]

theorem consistencyChecks_semiAnnual :
    consistencyChecks recordSemiAnnual = [(100, none), intervalContribution 180] := by
  unfold consistencyChecks
  rw [symbolCheck_semiAnnual, statementIntervalCheck_semiAnnual]
  norm_num [recordSemiAnnual]

theorem c8_counterexample :
    (intervalContribution 180).1 = 90 ∧
    (intervalContribution 180).1 ≠ 100 ∧
    (assessConsistency recordSemiAnnual).1 = 95 := by
  refine ⟨by rw [intervalContribution_180], by rw [intervalContribution_180]; norm_num, ?_⟩
  unfold assessConsistency
  dsimp only
  rw [consistencyChecks_semiAnnual, intervalContribution_180, if_pos (by simp)]
  norm_num [qMean]

theorem length_insertSorted (x : Int) (l : List Int) :
    (insertSorted x l).length = l.length + 1 := by
  induction l with
  | nil => rfl
  | cons y ys ih =>
      unfold insertSorted
      split_ifs <;> simp [ih]

theorem length_sortDates (l : List Int) : (sortDates l).length = l.length := by
  induction l with
  | nil => rfl
  | cons y ys ih =>
      show (insertSorted y (sortDates ys)).length = ys.length + 1
      rw [length_insertSorted, ih]

theorem consecDiffs_ne_nil (l : List Int) (h : 2 ≤ l.length) :
    consecDiffs l ≠ [] := by
  match l, h with
  | a :: b :: rest, _ => simp [consecDiffs]

/-- C8 amended: the statement-interval check gives full credit (100)
for quarterly (80-100 days) and annual (350-380 days) average gaps,
gives 90 — not full credit — for semi-annual gaps (160-200 days), and
contributes 70 with an issue entry for any other average gap; for any
record with more than one statement this check's contribution is one of
the consistency checks averaged into the score. -/
theorem c8_interval_check_amended (sd : StockData) (avg : ℚ) :
    (80 ≤ avg → avg ≤ 100 → intervalContribution avg = (100, none)) ∧
    (350 ≤ avg → avg ≤ 380 → intervalContribution avg = (100, none)) ∧
    (160 ≤ avg → avg ≤ 200 → intervalContribution avg = (90, none)) ∧
    (¬(80 ≤ avg ∧ avg ≤ 100) → ¬(350 ≤ avg ∧ avg ≤ 380) →
      ¬(160 ≤ avg ∧ avg ≤ 200) →
      (intervalContribution avg).1 = 70 ∧ (intervalContribution avg).2.isSome = true) ∧
    (1 < sd.financial_statements.length →
      intervalContribution (avgStatementInterval sd) ∈ consistencyChecks sd) := by
  refine ⟨?_, ?_, ?_, ?_, ?_⟩
  · intro h1 h2
    unfold intervalContribution
    rw [if_pos ⟨h1, h2⟩]
  · intro h1 h2
    unfold intervalContribution
    rw [if_neg (by rintro ⟨_, h⟩; linarith), if_pos ⟨h1, h2⟩]
  · intro h1 h2
    unfold intervalContribution
    rw [if_neg (by rintro ⟨h, _⟩; linarith), if_neg (by rintro ⟨h, _⟩; linarith),
      if_pos ⟨h1, h2⟩]
  · intro hn1 hn2 hn3
    unfold intervalContribution
    rw [if_neg hn1, if_neg hn2, if_neg hn3]
    exact ⟨rfl, rfl⟩
  · intro hlen
    have hdiffs : consecDiffs (sortDates
        (sd.financial_statements.map (·.period_ending))) ≠ [] := by
      apply consecDiffs_ne_nil
      rw [length_sortDates, List.length_map]
      omega
    have hsic : statementIntervalCheck sd =
        [intervalContribution (avgStatementInterval sd)] := by
      unfold statementIntervalCheck
      dsimp only
      rw [if_pos hdiffs]
      rfl
    unfold consistencyChecks
    rw [if_pos hlen, hsic]
    simp [List.mem_append]

/-- Witness for the amended C8: 180 days scores 90, 400 days scores 70
with an issue, and on the two-statement record the interval
contribution is among the consistency checks. -/
theorem c8_interval_check_amended_witness :
    intervalContribution 180 = (90, none) ∧
    (intervalContribution 400).1 = 70 ∧
    (intervalContribution 400).2.isSome = true ∧
    intervalContribution (avgStatementInterval recordSemiAnnual) ∈
      consistencyChecks recordSemiAnnual := by
  have h180 := (c8_interval_check_amended recordSemiAnnual 180).2.2.1
    (by norm_num) (by norm_num)
  have h400 := (c8_interval_check_amended recordSemiAnnual 400).2.2.2.1
    (by norm_num) (by norm_num) (by norm_num)
  have hmem := (c8_interval_check_amended recordSemiAnnual
    (avgStatementInterval recordSemiAnnual)).2.2.2.2 (by norm_num [recordSemiAnnual])
  exact ⟨h180, h400.1, h400.2, hmem⟩
